import Mathlib

/-!
A shallow embedding of the polling-and-deduplication pipeline of `index.js`
(pv-news): the SQLite-backed dedup store (`INSERT OR IGNORE` keyed by `id`,
the `selectBySource`/`selectAll`/`countBySource` prepared statements), the
Reddit poller (primary-subreddit `/new` listing, keyword searches over the
secondary subreddits, and the primary-subreddit comments listing), the X
poller with its bearer-token gate, the combined `pollAll` cycle, and the
`/api/refresh` handler.

External effects are made explicit: each HTTP fetch in a cycle is an input
(`FetchOutcome`), `datetime('now')` and `Date` conversions are parameters or
order-preserving textual encodings, and `console.error` reports are collected
into lists so that failure reporting is observable.
-/

namespace PvNews

/-- A row of the `posts` table (src/index.js, `CREATE TABLE posts`). -/
structure Row where
  id : String
  source : String
  title : Option String
  body : Option String
  url : Option String
  author : Option String
  score : Int
  subreddit : Option String
  permalink : Option String
  metrics : Option String
  created_at : String
  fetched_at : String
deriving DecidableEq, Repr

/-- The values bound by the `insertPost` prepared statement: every column of
`posts` except `fetched_at`, which defaults to `datetime('now')` at the store. -/
structure NewRow where
  id : String
  source : String
  title : Option String
  body : Option String
  url : Option String
  author : Option String
  score : Int
  subreddit : Option String
  permalink : Option String
  metrics : Option String
  created_at : String
deriving DecidableEq, Repr

/-- The `posts` table, in insertion order. The `id TEXT PRIMARY KEY` constraint
is maintained by `insertPost` below, which never inserts a duplicate id. -/
abbrev Store := List Row

/-- Whether the table holds a row with the given primary key. -/
def containsId (st : Store) (i : String) : Bool :=
  st.any (fun r => r.id = i)

/-- Number of rows of the table with the given id. -/
def countId (st : Store) (i : String) : Nat :=
  (st.filter (fun r => r.id = i)).length

/-- The row actually stored for `v`, with `fetched_at` filled in by the store
clock (`DEFAULT (datetime('now'))`). -/
def storedRow (v : NewRow) (now : String) : Row :=
  ⟨v.id, v.source, v.title, v.body, v.url, v.author, v.score, v.subreddit,
    v.permalink, v.metrics, v.created_at, now⟩

/-- `insertPost.run(...)`: `INSERT OR IGNORE INTO posts ...`. Returns the new
table and whether a row was inserted (in the source, `result.changes > 0`). -/
def insertPost (st : Store) (now : String) (v : NewRow) : Store × Bool :=
  if containsId st v.id then (st, false)
  else (st ++ [storedRow v now], true)

/-- Descending `created_at` comparison used by the `ORDER BY created_at DESC`
clauses: `a` may come before `b` when `b.created_at ≤ a.created_at`.
`created_at` is stored as TEXT (an ISO-8601 UTC string) and SQLite's default
BINARY collation compares the stored character sequence lexicographically, so
the comparison is on the strings' character lists. -/
def createdDesc (a b : Row) : Prop :=
  b.created_at.data ≤ a.created_at.data

instance : DecidableRel createdDesc := fun a b =>
  inferInstanceAs (Decidable (b.created_at.data ≤ a.created_at.data))

instance : IsTotal Row createdDesc :=
  ⟨fun a b => le_total b.created_at.data a.created_at.data⟩

instance : IsTrans Row createdDesc :=
  ⟨fun _ _ _ hab hbc => le_trans hbc hab⟩

/-- `selectAll`: `SELECT * FROM posts ORDER BY created_at DESC LIMIT 400`. -/
def selectAll (st : Store) : List Row :=
  (List.insertionSort createdDesc st).take 400

/-- `selectBySource`: `SELECT * FROM posts WHERE source = ? ORDER BY created_at
DESC LIMIT 200`. -/
def selectBySource (src : String) (st : Store) : List Row :=
  (List.insertionSort createdDesc (st.filter (fun r => r.source = src))).take 200

/-- The distinct `source` values present in the table. -/
def sourcesOf (st : Store) : List String :=
  (st.map (fun r => r.source)).dedup

/-- `countBySource`: `SELECT source, COUNT(*) as count FROM posts GROUP BY
source`. -/
def countBySource (st : Store) : List (String × Nat) :=
  (sourcesOf st).map (fun s => (s, (st.filter (fun r => r.source = s)).length))

/-! ### External inputs of one poll cycle -/

/-- The outcome of one `fetch(...)` call together with the parse of its JSON
body. `ok` carries the already-traversed payload (for listings, the array the
loop iterates over; `data?.data?.children ?? []` turns an absent array into an
empty one, so absence is represented by `ok []`). `httpFail` is a response with
`res.ok` false; `thrown` is a network or JSON-parse exception caught by the
surrounding `try` block. -/
inductive FetchOutcome (α : Type) where
  | ok (payload : α)
  | httpFail (status : Nat)
  | thrown (msg : String)
deriving DecidableEq, Repr

/-- The fields of a reddit listing child's `data` object that the poller
reads (`d.id`, `d.title`, `d.selftext`, `d.url`, `d.author`, `d.score`,
`d.subreddit`, `d.permalink`, `d.created_utc`). Fields that may be absent in
the JSON are `Option`s. -/
structure RedditPost where
  id : String
  title : Option String
  selftext : Option String
  url : Option String
  author : Option String
  score : Int
  subreddit : Option String
  permalink : String
  created_utc : Nat
deriving DecidableEq, Repr

/-- A child of the comments listing: its `kind` tag and the fields of its
`data` object that the poller reads. -/
structure RedditCommentChild where
  kind : String
  id : String
  body : Option String
  author : Option String
  score : Int
  subreddit : Option String
  permalink : String
  link_id : Option String
  link_title : Option String
  created_utc : Nat
deriving DecidableEq, Repr

/-- A tweet object of the X recent-search response: `id`, `text`,
`author_id`, `public_metrics` (a map of numeric engagement counts, possibly
absent), `created_at` (an ISO-8601 string). -/
structure Tweet where
  id : String
  text : Option String
  author_id : Option String
  public_metrics : Option (List (String × Nat))
  created_at : String
deriving DecidableEq, Repr

/-- The fetch outcomes a reddit poll cycle consumes: the primary subreddit
`/new.json` listing, one `search.json` outcome per secondary subreddit (in the
order of `REDDIT_SUBREDDITS.filter(s => s !== REDDIT_PRIMARY_SUB)`), and the
primary subreddit `comments.json` listing. -/
structure RedditWorld where
  primaryNew : FetchOutcome (List RedditPost)
  searches : List (String × FetchOutcome (List RedditPost))
  comments : FetchOutcome (List RedditCommentChild)
deriving DecidableEq, Repr

/-- The fetch outcomes of one whole `pollAll` cycle. -/
structure World where
  reddit : RedditWorld
  x : FetchOutcome (List Tweet)
deriving DecidableEq, Repr

/-! ### Normalization of raw records to rows -/

/-- JavaScript `s || null` applied to a string-or-undefined value: the empty
string is falsy, so it collapses to null exactly like an absent field. -/
def jsOrNull : Option String → Option String
  | none => none
  | some s => if s = "" then none else some s

/-- Models `new Date(sec * 1000).toISOString()`: an absolute textual timestamp.
Like ISO-8601 UTC strings, the encoding is fixed-width so that lexicographic
order on the produced strings agrees with chronological order. -/
def isoOfEpochSeconds (sec : Nat) : String :=
  let s := toString sec
  "ts" ++ String.mk (List.replicate (20 - s.length) '0') ++ s ++ "Z"

/-- Models `new Date(iso).toISOString()` on the already-ISO `created_at`
strings delivered by the X API: the identity on normalized timestamps. -/
def normalizeIsoDate (s : String) : String := s

/-- Models `JSON.stringify(\x7b link_id: ..., link_title: ... \x7d)`, the
comment-thread linkage blob stored in `metrics` for reddit comments. The
exact serialized text is opaque to the pipeline; we use an injective textual
encoding. -/
def stringifyLinkMetrics (link_id link_title : Option String) : String :=
  "json:link_id=" ++ toString link_id ++ ";link_title=" ++ toString link_title

/-- Models `JSON.stringify(tweet.public_metrics || \x7b\x7d)`: an injective
textual encoding of the engagement-count map. -/
def stringifyPublicMetrics (m : List (String × Nat)) : String :=
  "json:" ++ String.intercalate ";" (m.map (fun kv => kv.1 ++ "=" ++ toString kv.2))

/-- The row built for a child of the primary subreddit `/new` listing
(src/index.js:143-156). -/
def redditPostRowPrimary (d : RedditPost) : NewRow where
  id := "reddit_" ++ d.id
  source := "reddit"
  title := d.title
  body := jsOrNull d.selftext
  url := d.url
  author := d.author
  score := d.score
  subreddit := d.subreddit
  permalink := "https://www.reddit.com" ++ d.permalink
  metrics := none
  created_at := isoOfEpochSeconds d.created_utc

/-- The row built for a child of a secondary-subreddit search listing
(src/index.js:176-189); the construction is textually identical to the
primary-listing one. -/
def redditPostRowSearch (d : RedditPost) : NewRow where
  id := "reddit_" ++ d.id
  source := "reddit"
  title := d.title
  body := jsOrNull d.selftext
  url := d.url
  author := d.author
  score := d.score
  subreddit := d.subreddit
  permalink := "https://www.reddit.com" ++ d.permalink
  metrics := none
  created_at := isoOfEpochSeconds d.created_utc

/-- The sentinel filter of the comments loop:
`if (!c.body || c.body === "[deleted]" || c.body === "[removed]") continue;`
(the empty string is falsy in JavaScript). -/
def commentIsFiltered (c : RedditCommentChild) : Bool :=
  match c.body with
  | none => true
  | some b => b = "" || b = "[deleted]" || b = "[removed]"

/-- The row built for a kept comment child (src/index.js:220-232). -/
def redditCommentRow (c : RedditCommentChild) : NewRow where
  id := "reddit_comment_" ++ c.id
  source := "reddit_comment"
  title := none
  body := c.body
  url := none
  author := c.author
  score := c.score
  subreddit := c.subreddit
  permalink := "https://www.reddit.com" ++ c.permalink
  metrics := some (stringifyLinkMetrics c.link_id c.link_title)
  created_at := isoOfEpochSeconds c.created_utc

/-- The row built for a tweet of the X search response. -/
def tweetRow (t : Tweet) : NewRow where
  id := "x_" ++ t.id
  source := "x"
  title := none
  body := t.text
  url := some ("https://x.com/i/status/" ++ t.id)
  author := t.author_id
  score := 0
  subreddit := none
  permalink := none
  metrics := some (stringifyPublicMetrics (t.public_metrics.getD []))
  created_at := normalizeIsoDate t.created_at

/-! ### The pollers -/

/-- One insertion loop: upsert each row in order, counting the rows actually
inserted (`if (result.changes > 0) inserted++`). -/
def insertMany (now : String) : List NewRow → Store → Store × Nat
  | [], st => (st, 0)
  | v :: rows, st =>
      let r := insertPost st now v
      let rest := insertMany now rows r.1
      (rest.1, (if r.2 then 1 else 0) + rest.2)

/-- Outcome of one independently fallible endpoint query: the updated store,
the number of newly inserted rows, and the `console.error` reports it issued. -/
structure SubResult where
  store : Store
  inserted : Nat
  errors : List String
deriving DecidableEq, Repr

/-- Step 1 of `pollReddit`: the primary subreddit `/new` listing. A non-2xx
response is skipped silently (the `if (res.ok)` block is simply not entered);
an exception is caught and logged, aborting only this endpoint's loop. -/
def pollPrimaryNew (o : FetchOutcome (List RedditPost)) (now : String)
    (st : Store) : SubResult :=
  match o with
  | .ok children =>
      let r := insertMany now (children.map redditPostRowPrimary) st
      ⟨r.1, r.2, []⟩
  | .httpFail _ => ⟨st, 0, []⟩
  | .thrown msg => ⟨st, 0, ["[reddit] error fetching primary new: " ++ msg]⟩

/-- Step 2 of `pollReddit`: one search query per secondary subreddit. A non-2xx
response is logged and skipped with `continue`; an exception is caught and
logged; either way the loop proceeds to the next subreddit. -/
def pollSearches (now : String) :
    List (String × FetchOutcome (List RedditPost)) → Store → SubResult
  | [], st => ⟨st, 0, []⟩
  | sub :: rest, st =>
    match sub.2 with
    | .ok children =>
        let r := insertMany now (children.map redditPostRowSearch) st
        let t := pollSearches now rest r.1
        ⟨t.store, r.2 + t.inserted, t.errors⟩
    | .httpFail status =>
        let t := pollSearches now rest st
        ⟨t.store, t.inserted,
          ("[reddit] r/" ++ sub.1 ++ " returned " ++ toString status) :: t.errors⟩
    | .thrown msg =>
        let t := pollSearches now rest st
        ⟨t.store, t.inserted,
          ("[reddit] error fetching r/" ++ sub.1 ++ ": " ++ msg) :: t.errors⟩

/-- `pollSubredditComments()`: the primary-subreddit comments listing. Children
whose `kind` is not `"t1"` are skipped, then the deleted/removed/absent-body
sentinel filter is applied before upserting. A non-2xx response or an
exception is logged and ends only this function. -/
def pollSubredditComments (o : FetchOutcome (List RedditCommentChild))
    (now : String) (st : Store) : SubResult :=
  match o with
  | .ok children =>
      let kept := children.filter (fun c => c.kind = "t1" && !commentIsFiltered c)
      let r := insertMany now (kept.map redditCommentRow) st
      ⟨r.1, r.2, []⟩
  | .httpFail status =>
      ⟨st, 0, ["[reddit] comments returned " ++ toString status]⟩
  | .thrown msg =>
      ⟨st, 0, ["[reddit] error fetching comments: " ++ msg]⟩

/-- Outcome of `pollReddit()`: post insertions (primary listing plus searches,
the count the poller logs), comment insertions (logged separately by
`pollSubredditComments`), and all error reports. -/
structure RedditResult where
  store : Store
  insertedPosts : Nat
  insertedComments : Nat
  errors : List String
deriving DecidableEq, Repr

/-- `pollReddit()`: primary listing, then the secondary-subreddit searches,
then `pollSubredditComments()`. -/
def pollReddit (w : RedditWorld) (now : String) (st : Store) : RedditResult :=
  let p := pollPrimaryNew w.primaryNew now st
  let s := pollSearches now w.searches p.store
  let c := pollSubredditComments w.comments now s.store
  ⟨c.store, p.inserted + s.inserted, c.inserted, p.errors ++ s.errors ++ c.errors⟩

/-- Outcome of `pollX()`: `skipped` records the `console.warn` taken when no
`X_BEARER_TOKEN` is configured; `errors` the `console.error` reports. -/
structure XResult where
  store : Store
  inserted : Nat
  errors : List String
  skipped : Bool
deriving DecidableEq, Repr

/-- `pollX()`: with no bearer token configured it returns immediately with an
empty, successful (skipped, non-error) result; otherwise one search request,
whose failure is caught and logged. -/
def pollX (token : Option String) (o : FetchOutcome (List Tweet))
    (now : String) (st : Store) : XResult :=
  match token with
  | none => ⟨st, 0, [], true⟩
  | some _ =>
    match o with
    | .ok tweets =>
        let r := insertMany now (tweets.map tweetRow) st
        ⟨r.1, r.2, [], false⟩
    | .httpFail status => ⟨st, 0, ["[x] returned " ++ toString status], false⟩
    | .thrown msg => ⟨st, 0, ["[x] error: " ++ msg], false⟩

/-- Outcome of one whole cycle, per source. -/
structure CycleResult where
  store : Store
  insertedReddit : Nat
  insertedRedditComments : Nat
  insertedX : Nat
  redditErrors : List String
  xErrors : List String
  xSkipped : Bool
deriving DecidableEq, Repr

/-- `pollAll()`: `Promise.allSettled([pollReddit(), pollX()])` — both pollers
run to completion and neither outcome aborts the other. The two pollers write
rows with disjoint id prefixes (`reddit_`/`reddit_comment_` versus `x_`), so
their concurrent interleaving over the store is modelled by running the reddit
poller first and the X poller second. -/
def pollAll (token : Option String) (w : World) (now : String)
    (st : Store) : CycleResult :=
  let r := pollReddit w.reddit now st
  let x := pollX token w.x now r.store
  ⟨x.store, r.insertedPosts, r.insertedComments, x.inserted,
    r.errors, x.errors, x.skipped⟩

/-! ### The refresh-now endpoint -/

/-- The JSON body of the `/api/refresh` response:
`res.json(\x7b ok: true, ...counts \x7d)` where `counts` is the spread of the
`countBySource` aggregate. -/
structure RefreshResponse where
  ok : Bool
  counts : List (String × Nat)
deriving DecidableEq, Repr

/-- The `app.post("/api/refresh")` handler: await one full `pollAll()` cycle,
then respond with `ok: true` and the store-wide per-source row counts. The
handler itself throws only if a store query does. -/
def apiRefresh (token : Option String) (w : World) (now : String)
    (st : Store) : Store × RefreshResponse :=
  let c := pollAll token w now st
  (c.store, ⟨true, countBySource c.store⟩)

/-- What claim C4 reads the refresh summary to contain for each source: the
number of rows newly inserted by that cycle (the CycleReport insertion
counts), built here from the cycle outcome for comparison with the code's
response. -/
def claimCycleInsertionCounts (c : CycleResult) : List (String × Nat) :=
  [("reddit", c.insertedReddit), ("reddit_comment", c.insertedRedditComments),
    ("x", c.insertedX)]

/-! ### Concrete data for evaluating the pipeline -/

/-- A sample item as bound by the insert statement. -/
def sampleNewRow : NewRow :=
  ⟨"reddit_w1", "reddit", some "title", none, some "https://e", some "au", 5,
    some "puertovallarta", some "https://www.reddit.com/w1", none,
    "2024-05-01T00:00:00.000Z"⟩

/-- A second write to the id of `sampleNewRow` with every other field
different. -/
def clashNewRow : NewRow :=
  ⟨"reddit_w1", "reddit", some "other title", some "other body", none,
    some "other author", 99, some "mexico", none, some "m",
    "2025-05-01T00:00:00.000Z"⟩

/-- A forum post with native id `7`. -/
def samplePost : RedditPost :=
  ⟨"7", some "a post", some "hello", some "https://e", some "au", 2,
    some "puertovallarta", "/r/puertovallarta/7", 1700000000⟩

/-- A forum comment with the same native id `7`. -/
def sampleComment : RedditCommentChild :=
  ⟨"t1", "7", some "a comment", some "au2", 1, some "puertovallarta",
    "/r/puertovallarta/7/c", some "t3_1", some "a post", 1700000100⟩

/-- A forum post whose selftext is the empty string. -/
def falsyPost : RedditPost :=
  ⟨"p9", some "t", some "", none, some "au", 0, some "puertovallarta",
    "/p9", 1700000000⟩

/-- Two stored rows sharing one `created_at` value. -/
def rowTieA : Row :=
  ⟨"reddit_a", "reddit", some "A", none, none, none, 0, none, none, none,
    "2024-01-01T00:00:00.000Z", "f"⟩

/-- See `rowTieA`. -/
def rowTieB : Row :=
  ⟨"reddit_b", "reddit", some "B", none, none, none, 0, none, none, none,
    "2024-01-01T00:00:00.000Z", "f"⟩

/-- A stored forum-comment row whose body is the deleted sentinel. -/
def sentinelRow : Row :=
  ⟨"reddit_comment_old", "reddit_comment", none, some "[deleted]", none,
    some "au", 0, some "puertovallarta", none, none,
    "2023-01-01T00:00:00.000Z", "f0"⟩

/-- A pre-existing stored forum post. -/
def preRow : Row :=
  ⟨"reddit_pre", "reddit", some "old", none, none, none, 0, none, none, none,
    "2023-06-01T00:00:00.000Z", "f0"⟩

/-- A cycle in which every fetch throws: nothing can be inserted. -/
def quietWorld : World :=
  ⟨⟨.thrown "network", [], .thrown "network"⟩, .thrown "network"⟩

/-- Items for a cycle in which one secondary-subreddit search fails. -/
def postP : RedditPost :=
  ⟨"p1", some "primary", none, none, some "au", 1, some "puertovallarta",
    "/p1", 1700000000⟩

/-- See `postP`. -/
def postS : RedditPost :=
  ⟨"s1", some "searched", some "text", none, some "au", 1, some "travel",
    "/s1", 1700000001⟩

/-- See `postP`. -/
def commentC : RedditCommentChild :=
  ⟨"t1", "c1", some "fine body", some "au", 1, some "puertovallarta", "/c1",
    some "t3_p1", some "primary", 1700000002⟩

/-- See `postP`. -/
def tweetT : Tweet :=
  ⟨"t9", some "pv tweet", some "u9", some [("like_count", 3)],
    "2024-05-01T01:00:00.000Z"⟩

/-- A cycle in which the r/mexico search returns HTTP 503 while every other
path succeeds with one item. -/
def isoWorld : World :=
  ⟨⟨.ok [postP],
      [("mexico", .httpFail 503), ("travel", .ok [postS])],
      .ok [commentC]⟩,
    .ok [tweetT]⟩

/-- What claim C6 says of a query result: each item's `createdAt` is strictly
later than the next item's ("strictly later" being the strict order of the
stored timestamps, `¬ ≤`). -/
def claimStrictlyDescending : List Row → Bool
  | a :: b :: rest =>
      (!decide (a.created_at.data ≤ b.created_at.data)) &&
        claimStrictlyDescending (b :: rest)
  | _ => true

/-- A body that claim C7 calls a sentinel: absent, or equal to the
`"[deleted]"` / `"[removed]"` markers. -/
def sentinelBody : Option String → Bool
  | none => true
  | some b => b = "[deleted]" || b = "[removed]"

/-! ### Store lemmas -/

theorem containsId_iff {st : Store} {i : String} :
    containsId st i = true ↔ ∃ r ∈ st, r.id = i := by
  simp [containsId]

theorem countId_eq_zero {st : Store} {i : String}
    (h : containsId st i = false) : countId st i = 0 := by
  have h' : ∀ r ∈ st, ¬(r.id = i) := by
    simpa [containsId] using h
  have hfil : st.filter (fun r => r.id = i) = [] :=
    List.filter_eq_nil_iff.mpr (fun a ha => by simp [h' a ha])
  simp [countId, hfil]

theorem countId_append (st : Store) (rs : List Row) (i : String) :
    countId (st ++ rs) i = countId st i + countId rs i := by
  simp [countId, List.filter_append]

theorem insertPost_of_dup {st : Store} {v : NewRow} (now : String)
    (h : containsId st v.id = true) : insertPost st now v = (st, false) := by
  simp [insertPost, h]

theorem insertPost_of_fresh {st : Store} {v : NewRow} (now : String)
    (h : containsId st v.id = false) :
    insertPost st now v = (st ++ [storedRow v now], true) := by
  simp [insertPost, h]

theorem mem_insertPost_of_mem {st : Store} {now : String} {v : NewRow} {r : Row}
    (h : r ∈ st) : r ∈ (insertPost st now v).1 := by
  by_cases hc : containsId st v.id = true
  · rw [insertPost_of_dup now hc]; exact h
  · rw [insertPost_of_fresh now (Bool.eq_false_iff.mpr hc)]
    exact List.mem_append_left _ h

theorem mem_insertPost {st : Store} {now : String} {v : NewRow} {r : Row}
    (h : r ∈ (insertPost st now v).1) : r ∈ st ∨ r = storedRow v now := by
  by_cases hc : containsId st v.id = true
  · rw [insertPost_of_dup now hc] at h; exact Or.inl h
  · rw [insertPost_of_fresh now (Bool.eq_false_iff.mpr hc)] at h
    simpa using h

theorem containsId_insertPost_of_containsId {st : Store} {now : String}
    {v : NewRow} {i : String} (h : containsId st i = true) :
    containsId (insertPost st now v).1 i = true := by
  rcases containsId_iff.mp h with ⟨r, hr, hid⟩
  exact containsId_iff.mpr ⟨r, mem_insertPost_of_mem hr, hid⟩

theorem containsId_insertPost_self (st : Store) (now : String) (v : NewRow) :
    containsId (insertPost st now v).1 v.id = true := by
  by_cases hc : containsId st v.id = true
  · rw [insertPost_of_dup now hc]; exact hc
  · rw [insertPost_of_fresh now (Bool.eq_false_iff.mpr hc)]
    exact containsId_iff.mpr ⟨storedRow v now, by simp, rfl⟩

theorem countId_insertPost_of_ne {st : Store} {now : String} {v : NewRow}
    {i : String} (h : i ≠ v.id) :
    countId (insertPost st now v).1 i = countId st i := by
  by_cases hc : containsId st v.id = true
  · rw [insertPost_of_dup now hc]
  · rw [insertPost_of_fresh now (Bool.eq_false_iff.mpr hc), countId_append]
    have hz : countId [storedRow v now] i = 0 := by
      simp [countId, storedRow, Ne.symm h]
    omega

theorem containsId_insertPost_of_ne {st : Store} {now : String} {v : NewRow}
    {i : String} (hne : i ≠ v.id) :
    containsId (insertPost st now v).1 i = containsId st i := by
  by_cases hc : containsId st v.id = true
  · rw [insertPost_of_dup now hc]
  · rw [insertPost_of_fresh now (Bool.eq_false_iff.mpr hc)]
    simp [containsId, storedRow, Ne.symm hne]

theorem countId_insertPost_fresh {st : Store} {now : String} {v : NewRow}
    (h : containsId st v.id = false) :
    countId (insertPost st now v).1 v.id = 1 := by
  rw [insertPost_of_fresh now h, countId_append, countId_eq_zero h]
  simp [countId, storedRow]

/-! ### Insertion-loop lemmas -/

theorem mem_insertMany_of_mem {now : String} {r : Row} (rows : List NewRow)
    (st : Store) (h : r ∈ st) : r ∈ (insertMany now rows st).1 := by
  induction rows generalizing st with
  | nil => simpa [insertMany] using h
  | cons v rows ih =>
      simp only [insertMany]
      exact ih _ (mem_insertPost_of_mem h)

theorem containsId_insertMany_of_containsId {now : String} {i : String}
    (rows : List NewRow) (st : Store) (h : containsId st i = true) :
    containsId (insertMany now rows st).1 i = true := by
  rcases containsId_iff.mp h with ⟨r, hr, hid⟩
  exact containsId_iff.mpr ⟨r, mem_insertMany_of_mem rows st hr, hid⟩

theorem containsId_insertMany_self {now : String} {v : NewRow}
    (rows : List NewRow) (st : Store) (hv : v ∈ rows) :
    containsId (insertMany now rows st).1 v.id = true := by
  induction rows generalizing st with
  | nil => cases hv
  | cons w rows ih =>
      simp only [insertMany]
      rcases List.mem_cons.mp hv with h | h
      · subst h
        exact containsId_insertMany_of_containsId rows _
          (containsId_insertPost_self st now v)
      · exact ih _ h

theorem mem_insertMany {now : String} {r : Row} (rows : List NewRow)
    (st : Store) (h : r ∈ (insertMany now rows st).1) :
    r ∈ st ∨ ∃ v ∈ rows, r = storedRow v now := by
  induction rows generalizing st with
  | nil => exact Or.inl (by simpa [insertMany] using h)
  | cons w rows ih =>
      simp only [insertMany] at h
      rcases ih _ h with h' | ⟨v, hv, hr⟩
      · rcases mem_insertPost h' with h'' | h''
        · exact Or.inl h''
        · exact Or.inr ⟨w, by simp, h''⟩
      · exact Or.inr ⟨v, by simp [hv], hr⟩

/-! ### Poller lemmas: ids already present are kept, items of successful
endpoint queries are stored, and every new row is traceable to its path -/

theorem pollPrimaryNew_mono {o : FetchOutcome (List RedditPost)} {now : String}
    {st : Store} {i : String} (h : containsId st i = true) :
    containsId (pollPrimaryNew o now st).store i = true := by
  cases o with
  | ok children =>
      simp only [pollPrimaryNew]
      exact containsId_insertMany_of_containsId _ _ h
  | httpFail status => exact h
  | thrown msg => exact h

theorem pollPrimaryNew_covers {l : List RedditPost} {now : String} {st : Store}
    {d : RedditPost} (hd : d ∈ l) :
    containsId (pollPrimaryNew (.ok l) now st).store
      (redditPostRowPrimary d).id = true := by
  simp only [pollPrimaryNew]
  exact containsId_insertMany_self _ _ (List.mem_map_of_mem _ hd)

theorem pollPrimaryNew_mem {o : FetchOutcome (List RedditPost)} {now : String}
    {st : Store} {r : Row} (h : r ∈ (pollPrimaryNew o now st).store) :
    r ∈ st ∨ r.source = "reddit" := by
  cases o with
  | ok children =>
      simp only [pollPrimaryNew] at h
      rcases mem_insertMany _ _ h with h' | ⟨v, hv, hr⟩
      · exact Or.inl h'
      · rcases List.mem_map.mp hv with ⟨d, _, rfl⟩
        subst hr; exact Or.inr rfl
  | httpFail status => exact Or.inl h
  | thrown msg => exact Or.inl h

theorem pollSearches_mono {now : String} {i : String}
    (searches : List (String × FetchOutcome (List RedditPost))) (st : Store)
    (h : containsId st i = true) :
    containsId (pollSearches now searches st).store i = true := by
  induction searches generalizing st with
  | nil => exact h
  | cons sub rest ih =>
      rcases sub with ⟨name, outcome⟩
      cases outcome with
      | ok children =>
          simp only [pollSearches]
          exact ih _ (containsId_insertMany_of_containsId _ _ h)
      | httpFail status => exact ih _ h
      | thrown msg => exact ih _ h

theorem pollSearches_covers {now : String} {sub : String}
    {l : List RedditPost} {d : RedditPost}
    (searches : List (String × FetchOutcome (List RedditPost))) (st : Store)
    (hmem : (sub, FetchOutcome.ok l) ∈ searches) (hd : d ∈ l) :
    containsId (pollSearches now searches st).store
      (redditPostRowSearch d).id = true := by
  induction searches generalizing st with
  | nil => cases hmem
  | cons hd' rest ih =>
      rcases List.mem_cons.mp hmem with h | h
      · subst h
        simp only [pollSearches]
        exact pollSearches_mono rest _
          (containsId_insertMany_self _ _ (List.mem_map_of_mem _ hd))
      · rcases hd' with ⟨name, outcome⟩
        cases outcome with
        | ok children =>
            simp only [pollSearches]
            exact ih _ h
        | httpFail status => exact ih _ h
        | thrown msg => exact ih _ h

theorem pollSearches_mem {now : String} {r : Row}
    (searches : List (String × FetchOutcome (List RedditPost))) (st : Store)
    (h : r ∈ (pollSearches now searches st).store) :
    r ∈ st ∨ r.source = "reddit" := by
  induction searches generalizing st with
  | nil => exact Or.inl h
  | cons sub rest ih =>
      rcases sub with ⟨name, outcome⟩
      cases outcome with
      | ok children =>
          simp only [pollSearches] at h
          rcases ih _ h with h' | h'
          · rcases mem_insertMany _ _ h' with h'' | ⟨v, hv, hr⟩
            · exact Or.inl h''
            · rcases List.mem_map.mp hv with ⟨d, _, rfl⟩
              subst hr; exact Or.inr rfl
          · exact Or.inr h'
      | httpFail status => exact ih _ h
      | thrown msg => exact ih _ h

theorem pollSubredditComments_mono {o : FetchOutcome (List RedditCommentChild)}
    {now : String} {st : Store} {i : String} (h : containsId st i = true) :
    containsId (pollSubredditComments o now st).store i = true := by
  cases o with
  | ok children =>
      simp only [pollSubredditComments]
      exact containsId_insertMany_of_containsId _ _ h
  | httpFail status => exact h
  | thrown msg => exact h

theorem pollSubredditComments_covers {l : List RedditCommentChild}
    {now : String} {st : Store} {c : RedditCommentChild} (hc : c ∈ l)
    (hk : c.kind = "t1") (hf : commentIsFiltered c = false) :
    containsId (pollSubredditComments (.ok l) now st).store
      (redditCommentRow c).id = true := by
  simp only [pollSubredditComments]
  refine containsId_insertMany_self _ _ (List.mem_map_of_mem _ ?_)
  exact List.mem_filter.mpr ⟨hc, by simp [hk, hf]⟩

theorem sentinelBody_of_kept {c : RedditCommentChild}
    (hf : commentIsFiltered c = false) :
    sentinelBody (redditCommentRow c).body = false := by
  rcases hb : c.body with _ | b
  · simp [commentIsFiltered, hb] at hf
  · simp only [commentIsFiltered, hb, Bool.or_eq_false_iff, decide_eq_false_iff_not] at hf
    simp [redditCommentRow, sentinelBody, hb, hf.1.2, hf.2]

theorem pollSubredditComments_mem {o : FetchOutcome (List RedditCommentChild)}
    {now : String} {st : Store} {r : Row}
    (h : r ∈ (pollSubredditComments o now st).store) :
    r ∈ st ∨ (r.source = "reddit_comment" ∧ sentinelBody r.body = false) := by
  cases o with
  | ok children =>
      simp only [pollSubredditComments] at h
      rcases mem_insertMany _ _ h with h' | ⟨v, hv, hr⟩
      · exact Or.inl h'
      · rcases List.mem_map.mp hv with ⟨c, hc, rfl⟩
        subst hr
        have hf : commentIsFiltered c = false := by
          have := (List.mem_filter.mp hc).2
          simp only [Bool.and_eq_true, Bool.not_eq_true'] at this
          exact this.2
        exact Or.inr ⟨rfl, sentinelBody_of_kept hf⟩
  | httpFail status => exact Or.inl h
  | thrown msg => exact Or.inl h

theorem pollX_mono {token : Option String} {o : FetchOutcome (List Tweet)}
    {now : String} {st : Store} {i : String} (h : containsId st i = true) :
    containsId (pollX token o now st).store i = true := by
  cases token with
  | none => exact h
  | some tok =>
      cases o with
      | ok tweets =>
          simp only [pollX]
          exact containsId_insertMany_of_containsId _ _ h
      | httpFail status => exact h
      | thrown msg => exact h

theorem pollX_covers {tok : String} {l : List Tweet} {now : String}
    {st : Store} {t : Tweet} (ht : t ∈ l) :
    containsId (pollX (some tok) (.ok l) now st).store (tweetRow t).id = true := by
  simp only [pollX]
  exact containsId_insertMany_self _ _ (List.mem_map_of_mem _ ht)

theorem pollX_mem {token : Option String} {o : FetchOutcome (List Tweet)}
    {now : String} {st : Store} {r : Row}
    (h : r ∈ (pollX token o now st).store) : r ∈ st ∨ r.source = "x" := by
  cases token with
  | none => exact Or.inl h
  | some tok =>
      cases o with
      | ok tweets =>
          simp only [pollX] at h
          rcases mem_insertMany _ _ h with h' | ⟨v, hv, hr⟩
          · exact Or.inl h'
          · rcases List.mem_map.mp hv with ⟨t, _, rfl⟩
            subst hr; exact Or.inr rfl
      | httpFail status => exact Or.inl h
      | thrown msg => exact Or.inl h

/-- The store a full cycle ends with, spelled out stage by stage. -/
theorem pollAll_store (token : Option String) (w : World) (now : String)
    (st : Store) :
    (pollAll token w now st).store =
      (pollX token w.x now
        (pollSubredditComments w.reddit.comments now
          (pollSearches now w.reddit.searches
            (pollPrimaryNew w.reddit.primaryNew now st).store).store).store).store := rfl

/-! ### The claims -/

/-- C1: upsert is idempotent. Inserting the same Item (same `id`) twice into a
store not yet holding that id leaves exactly one stored row with that id; the
first upsert reports that a new row was inserted and the second reports "not
inserted" — the value the pollers' per-cycle inserted counters count. -/
theorem upsert_idempotent (st : Store) (now now2 : String) (v : NewRow)
    (hfresh : containsId st v.id = false) :
    (insertPost st now v).2 = true ∧
    (insertPost (insertPost st now v).1 now2 v).2 = false ∧
    countId (insertPost (insertPost st now v).1 now2 v).1 v.id = 1 := by
  have h1 := insertPost_of_fresh now hfresh
  have hc : containsId (insertPost st now v).1 v.id = true :=
    containsId_insertPost_self st now v
  have h2 := insertPost_of_dup now2 hc
  refine ⟨by rw [h1], by rw [h2], ?_⟩
  rw [h2]
  exact countId_insertPost_fresh hfresh

/-- Witness for C1 at a concrete item and the empty store. -/
theorem upsert_idempotent_witness :
    containsId [] sampleNewRow.id = false ∧
    ((insertPost [] "f1" sampleNewRow).2 = true ∧
      (insertPost (insertPost [] "f1" sampleNewRow).1 "f2" sampleNewRow).2 = false ∧
      countId (insertPost (insertPost [] "f1" sampleNewRow).1 "f2" sampleNewRow).1
        sampleNewRow.id = 1) :=
  ⟨by decide, upsert_idempotent [] "f1" "f2" sampleNewRow (by decide)⟩

/-- C5: first write wins. If some stored row already has the upserted id, the
upsert leaves the whole table unchanged — every field of every stored row,
`metrics` included, is untouched — and reports "not inserted"; the later write
is dropped, never merged. -/
theorem first_write_wins (st : Store) (now : String) (v : NewRow) (r₀ : Row)
    (hr : r₀ ∈ st) (hid : r₀.id = v.id) :
    (insertPost st now v).1 = st ∧ (insertPost st now v).2 = false := by
  have hc : containsId st v.id = true := containsId_iff.mpr ⟨r₀, hr, hid⟩
  rw [insertPost_of_dup now hc]
  exact ⟨rfl, rfl⟩

/-- Witness for C5: a clashing rewrite of an existing id changes nothing. -/
theorem first_write_wins_witness :
    (insertPost [storedRow sampleNewRow "f1"] "f2" clashNewRow).1 =
        [storedRow sampleNewRow "f1"] ∧
    (insertPost [storedRow sampleNewRow "f1"] "f2" clashNewRow).2 = false :=
  first_write_wins [storedRow sampleNewRow "f1"] "f2" clashNewRow
    (storedRow sampleNewRow "f1") (by decide) (by decide)

/-- C2: cross-source uniqueness. A forum post and a forum comment sharing one
native id `n` get distinct storage ids (`reddit_<n>` versus
`reddit_comment_<n>`), and upserting both into a store holding neither leaves
two distinct rows, exactly one per id. -/
theorem cross_source_uniqueness (n : String) (p : RedditPost)
    (c : RedditCommentChild) (hp : p.id = n) (hc : c.id = n)
    (st : Store) (now : String)
    (h1 : containsId st (redditPostRowPrimary p).id = false)
    (h2 : containsId st (redditCommentRow c).id = false) :
    (redditPostRowPrimary p).id ≠ (redditCommentRow c).id ∧
    countId (insertPost (insertPost st now (redditPostRowPrimary p)).1 now
      (redditCommentRow c)).1 (redditPostRowPrimary p).id = 1 ∧
    countId (insertPost (insertPost st now (redditPostRowPrimary p)).1 now
      (redditCommentRow c)).1 (redditCommentRow c).id = 1 := by
  have hne : (redditPostRowPrimary p).id ≠ (redditCommentRow c).id := by
    simp only [redditPostRowPrimary, redditCommentRow, hp, hc]
    intro he
    have hlen := congrArg String.length he
    simp [String.length_append] at hlen
    exact absurd hlen (by decide)
  refine ⟨hne, ?_, ?_⟩
  · rw [countId_insertPost_of_ne hne]
    exact countId_insertPost_fresh h1
  · have hfresh2 : containsId (insertPost st now (redditPostRowPrimary p)).1
        (redditCommentRow c).id = false := by
      rw [containsId_insertPost_of_ne (Ne.symm hne)]
      exact h2
    exact countId_insertPost_fresh hfresh2

/-- Witness for C2 at native id `7` and the empty store. -/
theorem cross_source_uniqueness_witness :
    (redditPostRowPrimary samplePost).id ≠ (redditCommentRow sampleComment).id ∧
    countId (insertPost (insertPost [] "f" (redditPostRowPrimary samplePost)).1 "f"
      (redditCommentRow sampleComment)).1 (redditPostRowPrimary samplePost).id = 1 ∧
    countId (insertPost (insertPost [] "f" (redditPostRowPrimary samplePost)).1 "f"
      (redditCommentRow sampleComment)).1 (redditCommentRow sampleComment).id = 1 :=
  cross_source_uniqueness "7" samplePost sampleComment rfl rfl [] "f"
    (by decide) (by decide)

/-- C8: credential gating. With no microblog bearer token configured, a full
cycle inserts zero microblog items, reports no microblog failure (only the
intentional skip), and the reddit half of the cycle is exactly what it is on
its own — the cycle completes. -/
theorem credential_gating (w : World) (now : String) (st : Store) :
    (pollAll none w now st).insertedX = 0 ∧
    (pollAll none w now st).xErrors = [] ∧
    (pollAll none w now st).xSkipped = true ∧
    (pollAll none w now st).store = (pollReddit w.reddit now st).store ∧
    (pollAll none w now st).insertedReddit =
      (pollReddit w.reddit now st).insertedPosts ∧
    (pollAll none w now st).insertedRedditComments =
      (pollReddit w.reddit now st).insertedComments ∧
    (pollAll none w now st).redditErrors = (pollReddit w.reddit now st).errors :=
  ⟨rfl, rfl, rfl, rfl, rfl, rfl, rfl⟩

/-- C9: read queries are bounded by per-shape caps: at most 200 rows from the
single-source query and at most 400 from the all-sources query, however many
rows the table holds. -/
theorem query_results_bounded (st : Store) (src : String) :
    (selectBySource src st).length ≤ 200 ∧ (selectAll st).length ≤ 400 :=
  ⟨List.length_take_le _ _, List.length_take_le _ _⟩

/-- C10: a falsy selftext — absent or the empty string — is stored as a null
body by both the primary-channel listing construction and the
secondary-channel search construction. -/
theorem falsy_selftext_body_null (d : RedditPost)
    (h : d.selftext = none ∨ d.selftext = some "") :
    (redditPostRowPrimary d).body = none ∧ (redditPostRowSearch d).body = none := by
  rcases h with h | h <;>
    simp [redditPostRowPrimary, redditPostRowSearch, jsOrNull, h]

/-- Witness for C10 at a post whose selftext is the empty string. -/
theorem falsy_selftext_body_null_witness :
    (redditPostRowPrimary falsyPost).body = none ∧
    (redditPostRowSearch falsyPost).body = none :=
  falsy_selftext_body_null falsyPost (Or.inr rfl)

/-- C6 as stated is false: with two stored rows sharing one `created_at`, the
`listAll` result is not strictly descending — one item's `createdAt` is not
strictly later than the next item's ("strictly later" being the strict order
`¬ ≤` of the linear order on the stored timestamps). -/
theorem listAll_not_strictly_sorted :
    claimStrictlyDescending (selectAll [rowTieA, rowTieB]) = false := by decide

/-- C6 amended: `listAll()` and `listBySource(source)` return items sorted by
`createdAt` descending in the non-strict sense — each item's `createdAt` is
greater than or equal to the next item's; rows with equal `createdAt` may be
adjacent. -/
theorem query_results_sorted_desc (st : Store) (src : String) :
    List.Sorted createdDesc (selectAll st) ∧
    List.Sorted createdDesc (selectBySource src st) :=
  ⟨(List.sorted_insertionSort createdDesc st).sublist
      (List.take_sublist 400 _),
    (List.sorted_insertionSort createdDesc _).sublist
      (List.take_sublist 200 _)⟩

/-- C7: sentinel filtering. Any row of the post-cycle store whose source is
the forum-comment source and whose body is absent or a deleted/removed
sentinel was already stored before the cycle: such comment records are never
inserted. -/
theorem sentinel_comments_never_inserted (token : Option String) (w : World)
    (now : String) (st : Store) (r : Row)
    (hr : r ∈ (pollAll token w now st).store)
    (hsrc : r.source = "reddit_comment")
    (hsent : sentinelBody r.body = true) : r ∈ st := by
  rw [pollAll_store] at hr
  rcases pollX_mem hr with h4 | h4
  · rcases pollSubredditComments_mem h4 with h3 | h3
    · rcases pollSearches_mem _ _ h3 with h2 | h2
      · rcases pollPrimaryNew_mem h2 with h1 | h1
        · exact h1
        · rw [hsrc] at h1
          exact absurd h1 (by decide)
      · rw [hsrc] at h2
        exact absurd h2 (by decide)
    · exact absurd hsent (by simp [h3.2])
  · rw [hsrc] at h4
    exact absurd h4 (by decide)

/-- Witness for C7: a sentinel-bodied comment row present after a concrete
cycle is exactly the one that was present before it. -/
theorem sentinel_comments_never_inserted_witness :
    sentinelRow ∈ ([sentinelRow] : Store) :=
  sentinel_comments_never_inserted none quietWorld "f1" [sentinelRow]
    sentinelRow (by decide) rfl (by decide)

/-- C3: partial-failure isolation. Whatever the outcome of every other path of
the cycle — any of them may have failed with a non-2xx status, thrown, or the
whole microblog adapter may be absent — every item delivered by a successful
path is upserted: its storage id is in the post-cycle store. The cycle itself
is a total function of its inputs: no path failure escapes it. -/
theorem partial_failure_isolation (token : Option String) (w : World)
    (now : String) (st : Store) :
    (∀ l d, w.reddit.primaryNew = FetchOutcome.ok l → d ∈ l →
      containsId (pollAll token w now st).store (redditPostRowPrimary d).id = true) ∧
    (∀ sub l d, (sub, FetchOutcome.ok l) ∈ w.reddit.searches → d ∈ l →
      containsId (pollAll token w now st).store (redditPostRowSearch d).id = true) ∧
    (∀ l c, w.reddit.comments = FetchOutcome.ok l → c ∈ l → c.kind = "t1" →
      commentIsFiltered c = false →
      containsId (pollAll token w now st).store (redditCommentRow c).id = true) ∧
    (∀ tok l t, token = some tok → w.x = FetchOutcome.ok l → t ∈ l →
      containsId (pollAll token w now st).store (tweetRow t).id = true) := by
  refine ⟨?_, ?_, ?_, ?_⟩
  · intro l d hw hd
    rw [pollAll_store, hw]
    exact pollX_mono (pollSubredditComments_mono
      (pollSearches_mono _ _ (pollPrimaryNew_covers hd)))
  · intro sub l d hw hd
    rw [pollAll_store]
    exact pollX_mono (pollSubredditComments_mono
      (pollSearches_covers _ _ hw hd))
  · intro l c hw hc hk hf
    rw [pollAll_store, hw]
    exact pollX_mono (pollSubredditComments_covers hc hk hf)
  · intro tok l t htok hw ht
    rw [pollAll_store, htok, hw]
    exact pollX_covers ht

/-- Witness for C3: in a concrete cycle whose r/mexico search fails with HTTP
503, the primary-listing item, the surviving search item, the comment and the
tweet are all stored. -/
theorem partial_failure_isolation_witness :
    containsId (pollAll (some "tok") isoWorld "f1" []).store
      (redditPostRowPrimary postP).id = true ∧
    containsId (pollAll (some "tok") isoWorld "f1" []).store
      (redditPostRowSearch postS).id = true ∧
    containsId (pollAll (some "tok") isoWorld "f1" []).store
      (redditCommentRow commentC).id = true ∧
    containsId (pollAll (some "tok") isoWorld "f1" []).store
      (tweetRow tweetT).id = true :=
  ⟨(partial_failure_isolation (some "tok") isoWorld "f1" []).1
      [postP] postP rfl (by decide),
    (partial_failure_isolation (some "tok") isoWorld "f1" []).2.1
      "travel" [postS] postS (by decide) (by decide),
    (partial_failure_isolation (some "tok") isoWorld "f1" []).2.2.1
      [commentC] commentC rfl (by decide) rfl rfl,
    (partial_failure_isolation (some "tok") isoWorld "f1" []).2.2.2
      "tok" [tweetT] tweetT rfl rfl (by decide)⟩

/-- C4 as stated is false at a concrete input: after a cycle that inserted
nothing into a store already holding one forum row, the refresh response
carries the pair `("reddit", 1)` — the store-wide total — while the cycle's
per-source insertion counts are all zero; the response is not the per-cycle
insertion counts (and carries no per-source success/failure status at all). -/
theorem refresh_summary_not_cycle_report :
    (apiRefresh none quietWorld "f1" [preRow]).2.counts = [("reddit", 1)] ∧
    claimCycleInsertionCounts (pollAll none quietWorld "f1" [preRow]) =
      [("reddit", 0), ("reddit_comment", 0), ("x", 0)] ∧
    (apiRefresh none quietWorld "f1" [preRow]).2.counts ≠
      claimCycleInsertionCounts (pollAll none quietWorld "f1" [preRow]) := by
  refine ⟨?_, ?_, ?_⟩ <;> decide

/-- C4 amended: the refresh handler synchronously runs one full poll cycle and
then always answers with `ok: true` together with, for every source having at
least one row in the post-cycle store, that source's total stored row count
(cumulative totals, not the cycle's insertion counts, and with no per-source
success/failure status); it raises no error unless the store itself does. -/
theorem refresh_returns_totals (token : Option String) (w : World)
    (now : String) (st : Store) :
    (apiRefresh token w now st).2.ok = true ∧
    (apiRefresh token w now st).1 = (pollAll token w now st).store ∧
    ∀ src r, r ∈ (apiRefresh token w now st).1 → r.source = src →
      (src, ((apiRefresh token w now st).1.filter
          (fun q => q.source = src)).length) ∈
        (apiRefresh token w now st).2.counts := by
  refine ⟨rfl, rfl, ?_⟩
  intro src r hr hsrc
  have hsrcmem : src ∈ sourcesOf (pollAll token w now st).store :=
    List.mem_dedup.mpr (List.mem_map.mpr ⟨r, hr, hsrc⟩)
  exact List.mem_map_of_mem _ hsrcmem

/-- Witness for C4's amended statement: after a concrete empty cycle over a
store with one forum row, the response lists the total row count for the
forum source. -/
theorem refresh_returns_totals_witness :
    ("reddit", ((apiRefresh none quietWorld "f1" [preRow]).1.filter
        (fun q => q.source = "reddit")).length) ∈
      (apiRefresh none quietWorld "f1" [preRow]).2.counts :=
  (refresh_returns_totals none quietWorld "f1" [preRow]).2.2 "reddit" preRow
    (by decide) rfl

end PvNews
